import Mathlib

/-!
Shallow embedding of the NRF registry simulation:
the `NRFRegistry` class (NF registration, heartbeat renewal, discovery,
deregistration and the heartbeat-timeout sweep) and the `ConnectionManager`
class (link admission policy, subnet check, compatibility matrix, and the
auto-registration coupling between links and the registry).

Timestamps (`Date.now()`) are modelled as `Nat` parameters; each operation
takes the current time explicitly.  JavaScript `Map` objects are modelled as
association lists with `Map.get`/`Map.set`/`Map.delete` semantics (`set` on an
existing key replaces the value in place, otherwise appends).  Delayed
callbacks (`setTimeout`) that mutate modelled state are represented
explicitly: the 5-second purge after deregistration becomes a
`pendingRemovals` list plus a separate `purgeNF` operation, and the 1.5-second
delayed auto-registration on link creation is executed as part of the link
creation step.  Purely observational side effects (console logging, log
engine entries, canvas re-rendering, UI status mirroring in the data store)
are outside the modelled state.
-/

namespace NRFSim

/-- Status of a registry profile, the `nfStatus` field in the source. -/
inductive NFStatus where
  | REGISTERED
  | UNAVAILABLE
  | REMOVED
deriving DecidableEq, Repr

/-- One entry of an NF `services` array, keeping the fields the discovery
filter consults (`serviceInstanceId`, `serviceName`). -/
structure ServiceInfo where
  serviceInstanceId : String
  serviceName : String
deriving DecidableEq, Repr

/-- Profile stored in `NRFRegistry.registry`, as built by `registerNF`. -/
structure NFProfile where
  nfInstanceId : String
  nfType : String
  nfName : String
  nfStatus : NFStatus
  heartBeatTimer : Nat
  registeredAt : Nat
  lastHeartbeat : Option Nat
  statusChangedAt : Nat
  deregisteredAt : Option Nat
  deregistrationReason : Option String
  ipAddress : Option String
  port : Option Nat
  httpProtocol : Option String
  services : Option (List ServiceInfo)
deriving DecidableEq, Repr

/-- Input profile passed to `registerNF` (the `nfProfile` argument as built by
`ConnectionManager.createConnection`); optional fields model absent keys. -/
structure NFProfileInput where
  nfType : String
  nfName : Option String
  ipAddress : Option String
  port : Option Nat
  httpProtocol : Option String
  services : Option (List ServiceInfo)
deriving DecidableEq, Repr

/-- Record pushed to `registrationHistory` and stored in
`registrationMessages` by `registerNF` (request/response payloads are
derived from these fields). -/
structure RegRecord where
  nfInstanceId : String
  nfType : String
  nfName : String
  timestamp : Nat
deriving DecidableEq, Repr

/-- Record pushed to `deregistrationHistory` and stored in
`deregistrationMessages` by `deregisterNF`; `reason` is the request's
`reason` field. -/
structure DeregRecord where
  nfInstanceId : String
  nfType : String
  nfName : String
  reason : String
  timestamp : Nat
deriving DecidableEq, Repr

/-- Response object returned by `registerNF`. -/
structure RegResponse where
  nfInstanceId : String
  nfStatus : NFStatus
  validity : Nat
  heartbeatTimer : Nat
deriving DecidableEq, Repr

/-- Heartbeat configuration constant `this.heartbeatInterval` (60 s). -/
def heartbeatInterval : Nat := 60000

/-- Heartbeat configuration constant `this.heartbeatTimeout` (120 s). -/
def heartbeatTimeout : Nat := 120000

/-- Heartbeat configuration constant `this.gracePeriod` (30 s). -/
def gracePeriod : Nat := 30000

/-- `Map.get`: first value bound to key `k`, if any. -/
def mapGet {α : Type} (k : String) : List (String × α) → Option α
  | [] => none
  | (k', v) :: rest => if k = k' then some v else mapGet k rest

/-- `Map.set`: replace the value at key `k` in place, else append at the end. -/
def mapSet {α : Type} (k : String) (v : α) : List (String × α) → List (String × α)
  | [] => [(k, v)]
  | (k', v') :: rest => if k = k' then (k, v) :: rest else (k', v') :: mapSet k v rest

/-- `Map.delete`: drop every entry bound to key `k`. -/
def mapDelete {α : Type} (k : String) : List (String × α) → List (String × α)
  | [] => []
  | (k', v') :: rest => if k = k' then mapDelete k rest else (k', v') :: mapDelete k rest

/-- Mutable state of an `NRFRegistry` instance (the five collections of the
constructor plus the purge requests scheduled by `deregisterNF`). -/
structure RegistryState where
  registry : List (String × NFProfile)
  registrationMessages : List (String × RegRecord)
  registrationHistory : List RegRecord
  deregistrationMessages : List (String × DeregRecord)
  deregistrationHistory : List DeregRecord
  pendingRemovals : List String
deriving DecidableEq, Repr

/-- Empty registry, as set up by the `NRFRegistry` constructor. -/
def RegistryState.init : RegistryState :=
  { registry := [], registrationMessages := [], registrationHistory := [],
    deregistrationMessages := [], deregistrationHistory := [], pendingRemovals := [] }

/-- Default `nfName`, the template string of `registerNF`
(last six characters of the instance id, as `slice(-6)`). -/
def defaultNfName (nfType nfInstanceId : String) : String :=
  nfType ++ "-" ++ nfInstanceId.takeRight 6

/-- Profile built by `registerNF`: the explicit fields of the object literal,
with the `...nfProfile` spread contributing the caller-supplied fields. -/
def builtProfile (nfInstanceId : String) (input : NFProfileInput)
    (existing : Option NFProfile) (now : Nat) : NFProfile :=
  { nfInstanceId := nfInstanceId
    nfType := input.nfType
    nfName := input.nfName.getD (defaultNfName input.nfType nfInstanceId)
    nfStatus := .REGISTERED
    heartBeatTimer := heartbeatInterval
    registeredAt := (existing.map (fun p => p.registeredAt)).getD now
    lastHeartbeat := some now
    statusChangedAt := now
    deregisteredAt := none
    deregistrationReason := none
    ipAddress := input.ipAddress
    port := input.port
    httpProtocol := input.httpProtocol
    services := input.services }

/-- `NRFRegistry.registerNF`: build/overwrite the profile (preserving
`registeredAt` when one already existed), store it, record the registration
message and history entry, and return the registration response. -/
def registerNF (nfInstanceId : String) (input : NFProfileInput) (now : Nat)
    (st : RegistryState) : RegistryState × RegResponse :=
  let existing := mapGet nfInstanceId st.registry
  let profile := builtProfile nfInstanceId input existing now
  let record : RegRecord :=
    { nfInstanceId := nfInstanceId, nfType := input.nfType,
      nfName := profile.nfName, timestamp := now }
  ({ st with
      registry := mapSet nfInstanceId profile st.registry
      registrationMessages := mapSet nfInstanceId record st.registrationMessages
      registrationHistory := st.registrationHistory ++ [record] },
   { nfInstanceId := nfInstanceId, nfStatus := .REGISTERED,
     validity := 3600, heartbeatTimer := heartbeatInterval })

/-- `NRFRegistry.updateHeartbeat`: `false` for an unknown id; otherwise stamp
`lastHeartbeat` and, when the profile was `UNAVAILABLE`, restore it to
`REGISTERED` recording the status change. -/
def updateHeartbeat (nfInstanceId : String) (now : Nat)
    (st : RegistryState) : Bool × RegistryState :=
  match mapGet nfInstanceId st.registry with
  | none => (false, st)
  | some profile =>
    let profile := { profile with lastHeartbeat := some now }
    let profile :=
      if profile.nfStatus = .UNAVAILABLE then
        { profile with nfStatus := .REGISTERED, statusChangedAt := now }
      else profile
    (true, { st with registry := mapSet nfInstanceId profile st.registry })

/-- Discovery query object accepted by `discoverNFs` (optional keys). -/
structure DiscoveryQuery where
  nfType : Option String
  service : Option String
deriving DecidableEq, Repr

/-- Empty discovery query `{}`. -/
def DiscoveryQuery.empty : DiscoveryQuery := { nfType := none, service := none }

/-- Filter predicate of `discoverNFs`: keep only `REGISTERED` profiles, apply
the optional `nfType` filter, and apply the optional service filter (which,
as in the source, is skipped when the profile has no `services` array). -/
def discoverKeep (query : DiscoveryQuery) (p : NFProfile) : Bool :=
  p.nfStatus = NFStatus.REGISTERED
    && (match query.nfType with
        | none => true
        | some t => p.nfType = t)
    && (match query.service, p.services with
        | some svc, some svcs =>
          svcs.any (fun s => s.serviceInstanceId = svc || s.serviceName = svc)
        | _, _ => true)

/-- `NRFRegistry.discoverNFs`: the profiles that pass `discoverKeep`, in
registry iteration order (the result objects spread the whole profile, so
they coincide with the stored profiles). -/
def discoverNFs (query : DiscoveryQuery) (st : RegistryState) : List NFProfile :=
  (st.registry.map Prod.snd).filter (discoverKeep query)

/-- Profile mutation performed by `deregisterNF` on a known id. -/
def deregProfile (p : NFProfile) (now : Nat) (reason : String) : NFProfile :=
  { p with nfStatus := .REMOVED, statusChangedAt := now,
           deregisteredAt := some now, deregistrationReason := some reason }

/-- Deregistration record built by `deregisterNF` for a profile `p`. -/
def deregRecordOf (nfInstanceId : String) (p : NFProfile) (reason : String)
    (now : Nat) : DeregRecord :=
  { nfInstanceId := nfInstanceId, nfType := p.nfType, nfName := p.nfName,
    reason := reason, timestamp := now }

/-- `NRFRegistry.deregisterNF`: warn-and-return on an unknown id; otherwise
mark the profile `REMOVED` with deregistration metadata, record the message
and history entry, and schedule removal from the live map (the 5-second
`setTimeout`, modelled by appending to `pendingRemovals`). -/
def deregisterNF (nfInstanceId reason : String) (now : Nat)
    (st : RegistryState) : RegistryState :=
  match mapGet nfInstanceId st.registry with
  | none => st
  | some profile =>
    let record := deregRecordOf nfInstanceId profile reason now
    { st with
        registry := mapSet nfInstanceId (deregProfile profile now reason) st.registry
        deregistrationMessages := mapSet nfInstanceId record st.deregistrationMessages
        deregistrationHistory := st.deregistrationHistory ++ [record]
        pendingRemovals := st.pendingRemovals ++ [nfInstanceId] }

/-- Delayed body of the purge `setTimeout` in `deregisterNF`:
`this.registry.delete(nfInstanceId)`. -/
def purgeNF (nfInstanceId : String) (st : RegistryState) : RegistryState :=
  { st with registry := mapDelete nfInstanceId st.registry }

/-- One visit of the `checkHeartbeatTimeouts` scan for a single profile:
the updated profile, and whether the id is collected into `toRemove`.
The per-profile branch depends only on that profile's own fields, so the
in-place mutation during `forEach` is equivalent to this one-entry view. -/
def sweepProfile (now : Nat) (p : NFProfile) : NFProfile × Bool :=
  let lastHeartbeat := p.lastHeartbeat.getD p.registeredAt
  if now - lastHeartbeat > heartbeatTimeout then
    if p.nfStatus = NFStatus.REGISTERED then
      ({ p with nfStatus := .UNAVAILABLE, statusChangedAt := now }, false)
    else if p.nfStatus = NFStatus.UNAVAILABLE then
      (p, now - p.statusChangedAt > gracePeriod)
    else (p, false)
  else (p, false)

/-- `NRFRegistry.checkHeartbeatTimeouts`: scan every profile (marking expired
`REGISTERED` profiles `UNAVAILABLE` and collecting grace-expired
`UNAVAILABLE` ones into `toRemove`), then deregister the collected ids with
reason `AUTOMATIC_HEARTBEAT_TIMEOUT` after the scan completes. -/
def checkHeartbeatTimeouts (now : Nat) (st : RegistryState) : RegistryState :=
  let toRemove := st.registry.filterMap
    (fun e => if (sweepProfile now e.2).2 then some e.1 else none)
  let scanned := { st with registry := st.registry.map (fun e => (e.1, (sweepProfile now e.2).1)) }
  toRemove.foldl (fun s i => deregisterNF i "AUTOMATIC_HEARTBEAT_TIMEOUT" now s) scanned

/-- Status of the profile stored under `id`, if present. -/
def statusOf (st : RegistryState) (id : String) : Option NFStatus :=
  (mapGet id st.registry).map (fun p => p.nfStatus)

/-- Lookup in a literal key/value table, as a JavaScript object property
access `table[key]` (missing key gives `undefined`, here `none`). -/
def tableLookup {α : Type} (k : String) : List (String × α) → Option α
  | [] => none
  | (k', v) :: rest => if k = k' then some v else tableLookup k rest

/-- Table returned by `ConnectionManager.initializeValidConnections`. -/
def validConnectionsTable : List (String × List String) :=
  [("NRF", ["AMF", "SMF", "UPF", "AUSF", "UDM", "PCF", "NSSF", "UDR"]),
   ("AMF", ["NRF", "SMF", "AUSF", "UDM", "PCF", "NSSF", "gNB", "UE"]),
   ("SMF", ["NRF", "AMF", "UPF", "PCF", "UDM", "UDR"]),
   ("UPF", ["NRF", "SMF", "gNB"]),
   ("AUSF", ["NRF", "AMF", "UDM"]),
   ("UDM", ["NRF", "AMF", "SMF", "AUSF", "PCF", "UDR"]),
   ("PCF", ["NRF", "AMF", "SMF", "UDM"]),
   ("NSSF", ["NRF", "AMF"]),
   ("UDR", ["NRF", "SMF", "UDM", "MySQL"]),
   ("gNB", ["AMF", "UPF", "UE"]),
   ("UE", ["gNB", "AMF"]),
   ("MySQL", ["UDR"]),
   ("ext-dn", ["UPF"])]

/-- Property access `this.validConnections[nfType]`. -/
def validConnections (nfType : String) : Option (List String) :=
  tableLookup nfType validConnectionsTable

/-- `ConnectionManager.isConnectionValid`: `false` when the source type has
no table entry, otherwise membership of the target in the source's list or,
failing that, of the source in the target's list. -/
def isConnectionValid (sourceType targetType : String) : Bool :=
  match validConnections sourceType with
  | none => false
  | some lst =>
    if lst.contains targetType then true
    else
      match validConnections targetType with
      | none => false
      | some lst2 => lst2.contains sourceType

/-- Interface-name table of `ConnectionManager.getInterfaceName`, keyed by
the template string `sourceType ++ "-" ++ targetType`. -/
def interfaceTable : List (String × String) :=
  [("AMF-NRF", "Nnrf_NFManagement"),
   ("SMF-NRF", "Nnrf_NFDiscovery"),
   ("UPF-NRF", "Nnrf_NFManagement"),
   ("AUSF-NRF", "Nnrf_NFManagement"),
   ("UDM-NRF", "Nnrf_NFManagement"),
   ("PCF-NRF", "Nnrf_NFManagement"),
   ("NSSF-NRF", "Nnrf_NFManagement"),
   ("UDR-NRF", "Nnrf_NFManagement"),
   ("AMF-SMF", "Namf_Communication"),
   ("AMF-AUSF", "Nausf_UEAuthentication"),
   ("AMF-UDM", "Nudm_UECM"),
   ("AMF-PCF", "Npcf_AMPolicyControl"),
   ("AMF-NSSF", "Nnssf_NSSelection"),
   ("AMF-UE", "N1"),
   ("SMF-UPF", "N4"),
   ("SMF-PCF", "Npcf_SMPolicyControl"),
   ("SMF-UDM", "Nudm_SDM"),
   ("SMF-UDR", "Nudr_EventExposure"),
   ("AUSF-UDM", "Nudm_Authentication"),
   ("PCF-UDM", "Nudm_PolicyControl"),
   ("gNB-AMF", "N2"),
   ("gNB-UPF", "N3"),
   ("gNB-UE", "Radio"),
   ("UE-gNB", "Radio"),
   ("UE-AMF", "N1"),
   ("UDM-UDR", "Nudr_DataRepository"),
   ("UDR-UDM", "Nudr_DataRepository"),
   ("UDR-MySQL", "SQL/REST API"),
   ("MySQL-UDR", "SQL/REST API"),
   ("UPF-ext-dn", "N6"),
   ("ext-dn-UPF", "N6")]

/-- `ConnectionManager.getInterfaceName`: forward key, then reverse key,
then the generic `SBI` default. -/
def getInterfaceName (sourceType targetType : String) : String :=
  match tableLookup (sourceType ++ "-" ++ targetType) interfaceTable with
  | some name => name
  | none =>
    match tableLookup (targetType ++ "-" ++ sourceType) interfaceTable with
    | some name => name
    | none => "SBI"

/-- JavaScript `ip.split(".")`: split into dot-separated parts, keeping
empty parts, one part for the empty string. -/
def splitOnDot : List Char → List String
  | [] => [""]
  | c :: rest =>
    match splitOnDot rest with
    | [] => [""]
    | h :: tl => if c = '.' then "" :: h :: tl else String.mk (c :: h.data) :: tl

/-- `ConnectionManager.getNetworkFromIP`: the first three dot-separated
octets re-joined with dots (a missing part renders as the string
JavaScript prints for `undefined`). -/
def getNetworkFromIP (ip : String) : String :=
  let parts := splitOnDot ip.data
  parts.getD 0 "undefined" ++ "." ++ parts.getD 1 "undefined" ++ "."
    ++ parts.getD 2 "undefined"

/-- Network function object held in the external data store, with the
configuration fields the connection manager reads. -/
structure NF where
  id : String
  type : String
  name : String
  ipAddress : String
  port : Nat
  httpProtocol : Option String
deriving DecidableEq, Repr

/-- Modelled from the spec: `window.dataStore.getNFById` (the data store
itself is outside the provided sources) — a weak-reference lookup of a
component instance by its id. -/
def getNFById (nfs : List NF) (nfId : String) : Option NF :=
  nfs.find? (fun nf => nf.id = nfId)

/-- Link object built by `ConnectionManager.createConnection`. -/
structure Link where
  id : String
  sourceId : String
  targetId : String
  interfaceName : String
  protocol : String
  status : String
  createdAt : Nat
  isManual : Bool
  showVisual : Bool
deriving DecidableEq, Repr

/-- Rejection causes of `createConnection`, in source order: unknown NF ids,
self-connection, the cross-subnet alert (naming both subnets), and the
3GPP-compatibility alert (naming both types). -/
inductive CreateReject where
  | invalidIds
  | selfConnection
  | subnetRestriction (sourceNet targetNet : String)
  | invalidTypes (sourceType targetType : String)
deriving DecidableEq, Repr

/-- Admission part of `ConnectionManager.createConnection`: the sequence of
early returns, and on success the connection object that is stored. -/
def createConnectionResult (nfs : List NF) (sourceId targetId : String)
    (connId protocol : String) (now : Nat) (isManual : Bool) :
    Except CreateReject Link :=
  match getNFById nfs sourceId, getNFById nfs targetId with
  | some sourceNF, some targetNF =>
    if sourceId = targetId then .error .selfConnection
    else
      let sourceNetwork := getNetworkFromIP sourceNF.ipAddress
      let targetNetwork := getNetworkFromIP targetNF.ipAddress
      if sourceNetwork ≠ targetNetwork then
        .error (.subnetRestriction sourceNetwork targetNetwork)
      else if ¬ isConnectionValid sourceNF.type targetNF.type then
        .error (.invalidTypes sourceNF.type targetNF.type)
      else
        .ok { id := connId, sourceId := sourceId, targetId := targetId,
              interfaceName := getInterfaceName sourceNF.type targetNF.type,
              protocol := protocol, status := "connected", createdAt := now,
              isManual := isManual, showVisual := true }
  | _, _ => .error .invalidIds

/-- Combined state the connection manager operates on: the external data
store's NF list and connection list, the NRF registry, and the set of NF ids
with a running heartbeat interval (`nf.heartbeatIntervalId`). -/
structure World where
  nfs : List NF
  connections : List Link
  reg : RegistryState
  activeHeartbeats : List String
deriving DecidableEq, Repr

/-- Helper of `startNFHeartbeat`: whether `conn` connects `nfId` to an
NRF-typed NF (the `nrfConnection` search). -/
def isNRFConnection (nfs : List NF) (nfId : String) (conn : Link) : Bool :=
  (conn.sourceId = nfId || conn.targetId = nfId)
    && (match getNFById nfs (if conn.sourceId = nfId then conn.targetId else conn.sourceId) with
        | some other => other.type = "NRF"
        | none => false)

/-- `ConnectionManager.startNFHeartbeat`: start the renewal interval for
`nfId` (recorded in `activeHeartbeats`) unless the NF is missing, is the NRF,
already has a heartbeat, or has no connection to an NRF; on start, send the
initial heartbeat immediately. -/
def startNFHeartbeat (nfId : String) (now : Nat) (w : World) : World :=
  match getNFById w.nfs nfId with
  | none => w
  | some nf =>
    if nf.type = "NRF" then w
    else if w.activeHeartbeats.contains nfId then w
    else if w.connections.any (isNRFConnection w.nfs nfId) then
      { w with activeHeartbeats := nfId :: w.activeHeartbeats,
               reg := (updateHeartbeat nfId now w.reg).2 }
    else w

/-- `ConnectionManager.stopNFHeartbeat`: clear the renewal interval of
`nfId`, if the NF exists and has one. -/
def stopNFHeartbeat (nfId : String) (w : World) : World :=
  match getNFById w.nfs nfId with
  | none => w
  | some _ => { w with activeHeartbeats := w.activeHeartbeats.filter (fun i => i ≠ nfId) }

/-- Table of `ConnectionManager.getServicesForNF`. -/
def servicesForNFTable : List (String × List ServiceInfo) :=
  [("AMF", [{ serviceName := "namf-comm", serviceInstanceId := "namf-comm-v1" },
            { serviceName := "namf-evts", serviceInstanceId := "namf-evts-v1" }]),
   ("SMF", [{ serviceName := "nsmf-pdusession", serviceInstanceId := "nsmf-pdusession-v1" },
            { serviceName := "nsmf-event-exposure", serviceInstanceId := "nsmf-event-exposure-v1" }]),
   ("UPF", [{ serviceName := "nupf-pfcp", serviceInstanceId := "nupf-pfcp-v1" }]),
   ("AUSF", [{ serviceName := "nausf-auth", serviceInstanceId := "nausf-auth-v1" }]),
   ("UDM", [{ serviceName := "nudm-sdm", serviceInstanceId := "nudm-sdm-v1" },
            { serviceName := "nudm-uecm", serviceInstanceId := "nudm-uecm-v1" },
            { serviceName := "nudm-ueau", serviceInstanceId := "nudm-ueau-v1" }]),
   ("PCF", [{ serviceName := "npcf-am-policy-control", serviceInstanceId := "npcf-am-policy-control-v1" },
            { serviceName := "npcf-smpolicycontrol", serviceInstanceId := "npcf-smpolicycontrol-v1" }]),
   ("NSSF", [{ serviceName := "nnssf-nsselection", serviceInstanceId := "nnssf-nsselection-v1" }]),
   ("UDR", [{ serviceName := "nudr-dr", serviceInstanceId := "nudr-dr-v1" }]),
   ("NRF", [{ serviceName := "nnrf-nfm", serviceInstanceId := "nnrf-nfm-v1" },
            { serviceName := "nnrf-disc", serviceInstanceId := "nnrf-disc-v1" }])]

/-- `ConnectionManager.getServicesForNF`: table lookup with empty default. -/
def getServicesForNF (nfType : String) : List ServiceInfo :=
  (tableLookup nfType servicesForNFTable).getD []

/-- Registration payload `createConnection` builds for the NF that connects
to the NRF. -/
def profileForNF (nf : NF) : NFProfileInput :=
  { nfType := nf.type, nfName := some nf.name, ipAddress := some nf.ipAddress,
    port := some nf.port, httpProtocol := some (nf.httpProtocol.getD "HTTP/2"),
    services := some (getServicesForNF nf.type) }

/-- `ConnectionManager.createConnection` with its registry side effects: on
admission, store the link, then (the 1.5-second delayed callback, executed
here as part of the step) register the non-NRF endpoint with the NRF when
exactly one endpoint is NRF-typed, and start that endpoint's heartbeat.
The tun0 / NAS-signaling branches touch only unmodelled UI state. -/
def createConnection (sourceId targetId : String) (isManual : Bool)
    (connId protocol : String) (now : Nat) (w : World) : Option Link × World :=
  match createConnectionResult w.nfs sourceId targetId connId protocol now isManual with
  | .error _ => (none, w)
  | .ok conn =>
    let w := { w with connections := w.connections ++ [conn] }
    match getNFById w.nfs sourceId, getNFById w.nfs targetId with
    | some sourceNF, some targetNF =>
      if targetNF.type = "NRF" ∧ sourceNF.type ≠ "NRF" then
        let w := { w with reg := (registerNF sourceNF.id (profileForNF sourceNF) now w.reg).1 }
        (some conn, startNFHeartbeat sourceNF.id now w)
      else if sourceNF.type = "NRF" ∧ targetNF.type ≠ "NRF" then
        let w := { w with reg := (registerNF targetNF.id (profileForNF targetNF) now w.reg).1 }
        (some conn, startNFHeartbeat targetNF.id now w)
      else (some conn, w)
    | _, _ => (some conn, w)

/-- Modelled from the spec: `window.dataStore.getConnectionById` (the data
store itself is outside the provided sources) — lookup of a stored link by
its id. -/
def getConnectionById (conns : List Link) (connectionId : String) : Option Link :=
  conns.find? (fun c => c.id = connectionId)

/-- `ConnectionManager.deleteConnection`: no-op on an unknown id; otherwise,
when exactly one endpoint is NRF-typed, deregister the other endpoint with
reason `NRF_CONNECTION_REMOVED` and stop its heartbeat; finally remove the
link from the store. -/
def deleteConnection (connectionId : String) (now : Nat) (w : World) : World :=
  match getConnectionById w.connections connectionId with
  | none => w
  | some connection =>
    let w :=
      match getNFById w.nfs connection.sourceId, getNFById w.nfs connection.targetId with
      | some sourceNF, some targetNF =>
        if targetNF.type = "NRF" ∧ sourceNF.type ≠ "NRF" then
          stopNFHeartbeat sourceNF.id
            { w with reg := deregisterNF sourceNF.id "NRF_CONNECTION_REMOVED" now w.reg }
        else if sourceNF.type = "NRF" ∧ targetNF.type ≠ "NRF" then
          stopNFHeartbeat targetNF.id
            { w with reg := deregisterNF targetNF.id "NRF_CONNECTION_REMOVED" now w.reg }
        else w
      | _, _ => w
    { w with connections := w.connections.filter (fun c => c.id ≠ connectionId) }

/-- Specification-side compatibility predicate, written from the spec's words
for `IsAdmissible`: `typeB` appears in `typeA`'s allowed-peer set, or `typeA`
appears in `typeB`'s allowed-peer set.  It is compared with the source's
`isConnectionValid`, which instead returns `false` outright when the source
type has no table entry. -/
def typesCompatibleSpec (typeA typeB : String) : Bool :=
  (match validConnections typeA with
   | some l => l.contains typeB
   | none => false)
  || (match validConnections typeB with
      | some l => l.contains typeA
      | none => false)

/-- Specification-side link admission, written from the claim's words: reject
unknown endpoints, then self-links, then cross-subnet pairs (naming both
subnets), then type-incompatible pairs (naming both types), each with its
own reason; otherwise produce the link. -/
def claimedCreateLink (nfs : List NF) (sourceId targetId : String)
    (connId protocol : String) (now : Nat) (isManual : Bool) :
    Except CreateReject Link :=
  match getNFById nfs sourceId, getNFById nfs targetId with
  | some sourceNF, some targetNF =>
    if sourceId = targetId then .error .selfConnection
    else if getNetworkFromIP sourceNF.ipAddress ≠ getNetworkFromIP targetNF.ipAddress then
      .error (.subnetRestriction (getNetworkFromIP sourceNF.ipAddress)
                (getNetworkFromIP targetNF.ipAddress))
    else if ¬ typesCompatibleSpec sourceNF.type targetNF.type then
      .error (.invalidTypes sourceNF.type targetNF.type)
    else
      .ok { id := connId, sourceId := sourceId, targetId := targetId,
            interfaceName := getInterfaceName sourceNF.type targetNF.type,
            protocol := protocol, status := "connected", createdAt := now,
            isManual := isManual, showVisual := true }
  | _, _ => .error .invalidIds

/-- Well-formedness of the registry map, automatic for a JavaScript `Map`:
every stored profile carries its own key as `nfInstanceId`, and keys are not
duplicated. -/
def regWF (st : RegistryState) : Prop :=
  (∀ kp ∈ st.registry, (kp.2).nfInstanceId = kp.1)
    ∧ (st.registry.map Prod.fst).Nodup

/-- Sample profile used by concrete witnesses. -/
def sampleProfile (id ty : String) (status : NFStatus) (hb chg : Nat) : NFProfile :=
  { nfInstanceId := id, nfType := ty, nfName := ty ++ "-x", nfStatus := status,
    heartBeatTimer := heartbeatInterval, registeredAt := 0,
    lastHeartbeat := some hb, statusChangedAt := chg, deregisteredAt := none,
    deregistrationReason := none, ipAddress := none, port := none,
    httpProtocol := none, services := none }

/-- Registry state holding the given profiles keyed by their instance ids. -/
def sampleState (ps : List NFProfile) : RegistryState :=
  { RegistryState.init with registry := ps.map (fun p => (p.nfInstanceId, p)) }

/-- Sample registry for witnesses: one `REGISTERED`, one `UNAVAILABLE` and
one `REMOVED` profile. -/
def wState0 : RegistryState :=
  sampleState [sampleProfile "amf-1" "AMF" .REGISTERED 0 0,
               sampleProfile "smf-1" "SMF" .UNAVAILABLE 0 0,
               sampleProfile "udm-1" "UDM" .REMOVED 0 0]

/-- Sample registration input used by concrete witnesses. -/
def wInput0 : NFProfileInput :=
  { nfType := "AMF", nfName := some "AMF-5", ipAddress := some "192.168.1.5",
    port := some 7777, httpProtocol := some "HTTP/2",
    services := some (getServicesForNF "AMF") }

/-- Sample world for the auto-registration witness: an NRF and an AMF in the
same subnet, no links yet, empty registry. -/
def wWorld0 : World :=
  { nfs := [{ id := "nrf-1", type := "NRF", name := "NRF", ipAddress := "192.168.1.2",
              port := 7777, httpProtocol := none },
            { id := "amf-1", type := "AMF", name := "AMF", ipAddress := "192.168.1.5",
              port := 7777, httpProtocol := none }],
    connections := [], reg := RegistryState.init, activeHeartbeats := [] }

/-! Helper lemmas about the `Map` primitives. -/

theorem mapGet_mapSet_self {α : Type} (k : String) (v : α) (m : List (String × α)) :
    mapGet k (mapSet k v m) = some v := by
  induction m with
  | nil => simp [mapGet, mapSet]
  | cons e rest ih =>
    obtain ⟨k', v'⟩ := e
    by_cases h : k = k'
    · simp [mapSet, h, mapGet]
    · simp [mapSet, h, mapGet, ih]

theorem mapGet_mapSet_ne {α : Type} {k k' : String} (h : k ≠ k') (v : α)
    (m : List (String × α)) : mapGet k (mapSet k' v m) = mapGet k m := by
  induction m with
  | nil => simp [mapGet, mapSet, h]
  | cons e rest ih =>
    obtain ⟨k₀, v₀⟩ := e
    by_cases h0 : k' = k₀
    · subst h0
      simp [mapSet, mapGet, h, ih]
    · by_cases h1 : k = k₀ <;> simp [mapSet, mapGet, h0, h1, ih]

theorem mapGet_mem {α : Type} {k : String} {v : α} :
    ∀ {m : List (String × α)}, mapGet k m = some v → (k, v) ∈ m := by
  intro m
  induction m with
  | nil => intro h; simp [mapGet] at h
  | cons e rest ih =>
    obtain ⟨k₀, v₀⟩ := e
    intro h
    by_cases h0 : k = k₀
    · subst h0
      simp [mapGet] at h
      simp [h]
    · simp [mapGet, h0] at h
      exact List.mem_cons_of_mem _ (ih h)

theorem mem_mapGet {α : Type} {k : String} {v : α} :
    ∀ {m : List (String × α)}, (m.map Prod.fst).Nodup → (k, v) ∈ m →
      mapGet k m = some v := by
  intro m
  induction m with
  | nil => intro _ h; simp at h
  | cons e rest ih =>
    obtain ⟨k₀, v₀⟩ := e
    intro hn hm
    rw [List.map_cons, List.nodup_cons] at hn
    rcases List.mem_cons.mp hm with h | h
    · rw [Prod.mk.injEq] at h
      simp [mapGet, h.1, h.2]
    · have hk : k ≠ k₀ := by
        intro he
        exact hn.1 (by
          subst he
          exact List.mem_map.mpr ⟨(k, v), h, rfl⟩)
      simp [mapGet, hk]
      exact ih hn.2 h

theorem mapGet_none_not_mem {α : Type} {k : String} :
    ∀ {m : List (String × α)}, mapGet k m = none → k ∉ m.map Prod.fst := by
  intro m
  induction m with
  | nil => intro _ h; simp at h
  | cons e rest ih =>
    obtain ⟨k₀, v₀⟩ := e
    intro h hm
    by_cases h0 : k = k₀
    · simp [mapGet, h0] at h
    · simp [mapGet, h0] at h
      rcases List.mem_cons.mp hm with h1 | h1
      · exact h0 h1
      · exact ih h h1

theorem keys_mapSet_of_isSome {α : Type} {k : String} (v : α) :
    ∀ {m : List (String × α)}, (mapGet k m).isSome →
      (mapSet k v m).map Prod.fst = m.map Prod.fst := by
  intro m
  induction m with
  | nil => intro h; simp [mapGet] at h
  | cons e rest ih =>
    obtain ⟨k₀, v₀⟩ := e
    intro h
    by_cases h0 : k = k₀
    · simp [mapSet, h0]
    · simp [mapGet, h0] at h
      simp [mapSet, h0, ih h]

theorem keys_mapSet_of_none {α : Type} {k : String} (v : α) :
    ∀ {m : List (String × α)}, mapGet k m = none →
      (mapSet k v m).map Prod.fst = m.map Prod.fst ++ [k] := by
  intro m
  induction m with
  | nil => intro _; simp [mapSet]
  | cons e rest ih =>
    obtain ⟨k₀, v₀⟩ := e
    intro h
    by_cases h0 : k = k₀
    · simp [mapGet, h0] at h
    · simp [mapGet, h0] at h
      simp [mapSet, h0, ih h]

theorem nodup_keys_mapSet {α : Type} (k : String) (v : α)
    {m : List (String × α)} (hn : (m.map Prod.fst).Nodup) :
    ((mapSet k v m).map Prod.fst).Nodup := by
  cases h : mapGet k m with
  | none =>
    rw [keys_mapSet_of_none v h]
    have hk : k ∉ m.map Prod.fst := mapGet_none_not_mem h
    simp [List.nodup_append, hn, hk]
  | some w =>
    rw [keys_mapSet_of_isSome v (by simp [h])]
    exact hn

theorem mem_mapSet {α : Type} {k : String} {v : α} {e : String × α} :
    ∀ {m : List (String × α)}, e ∈ mapSet k v m → e = (k, v) ∨ e ∈ m := by
  intro m
  induction m with
  | nil => intro h; simp [mapSet] at h; exact Or.inl h
  | cons e₀ rest ih =>
    obtain ⟨k₀, v₀⟩ := e₀
    intro h
    by_cases h0 : k = k₀
    · simp [mapSet, h0] at h
      rcases h with h | h
      · exact Or.inl (by simp [h, h0])
      · exact Or.inr (List.mem_cons_of_mem _ h)
    · simp only [mapSet, if_neg h0, List.mem_cons] at h
      rcases h with h | h
      · exact Or.inr (List.mem_cons.mpr (Or.inl h))
      · rcases ih h with h1 | h1
        · exact Or.inl h1
        · exact Or.inr (List.mem_cons_of_mem _ h1)

theorem mapGet_map_snd {α β : Type} (f : α → β) (k : String) :
    ∀ (m : List (String × α)),
      mapGet k (m.map (fun e => (e.1, f e.2))) = (mapGet k m).map f := by
  intro m
  induction m with
  | nil => simp [mapGet]
  | cons e rest ih =>
    obtain ⟨k₀, v₀⟩ := e
    by_cases h0 : k = k₀ <;> simp [mapGet, h0, ih]

/-! Helper lemmas about the registry operations. -/

theorem mapGet_deregisterNF_self (i reason : String) (now : Nat) (st : RegistryState) :
    mapGet i (deregisterNF i reason now st).registry
      = (mapGet i st.registry).map (fun p => deregProfile p now reason) := by
  cases h : mapGet i st.registry with
  | none => simp [deregisterNF, h]
  | some p => simp [deregisterNF, h, mapGet_mapSet_self]

theorem mapGet_deregisterNF_ne {k i : String} (h : k ≠ i) (reason : String)
    (now : Nat) (st : RegistryState) :
    mapGet k (deregisterNF i reason now st).registry = mapGet k st.registry := by
  cases h0 : mapGet i st.registry with
  | none => simp [deregisterNF, h0]
  | some p => simp [deregisterNF, h0, mapGet_mapSet_ne h]

theorem deregProfile_idem (p : NFProfile) (now : Nat) (reason : String) :
    deregProfile (deregProfile p now reason) now reason = deregProfile p now reason := rfl

theorem mapGet_foldDereg (reason : String) (now : Nat) (id : String) :
    ∀ (ids : List String) (st : RegistryState),
      mapGet id ((ids.foldl (fun s i => deregisterNF i reason now s) st)).registry
        = if id ∈ ids
          then (mapGet id st.registry).map (fun p => deregProfile p now reason)
          else mapGet id st.registry := by
  intro ids
  induction ids with
  | nil => intro st; simp
  | cons i tl ih =>
    intro st
    rw [List.foldl_cons, ih]
    by_cases h0 : id = i
    · subst h0
      rw [mapGet_deregisterNF_self]
      by_cases h1 : id ∈ tl
      · simp [h1, Option.map_map, Function.comp_def, deregProfile_idem]
      · simp [h1]
    · rw [mapGet_deregisterNF_ne h0]
      simp [List.mem_cons, h0]

theorem mem_sweepRemove_iff (now : Nat) (st : RegistryState) (id : String)
    (hn : (st.registry.map Prod.fst).Nodup) :
    (id ∈ st.registry.filterMap
        (fun e => if (sweepProfile now e.2).2 then some e.1 else none))
      ↔ ∃ p, mapGet id st.registry = some p ∧ (sweepProfile now p).2 = true := by
  rw [List.mem_filterMap]
  constructor
  · rintro ⟨⟨k, p⟩, hm, hif⟩
    by_cases hf : (sweepProfile now p).2
    · simp only [hf, if_true, Option.some.injEq] at hif
      subst hif
      exact ⟨p, mem_mapGet hn hm, hf⟩
    · simp [hf] at hif
  · rintro ⟨p, hget, hf⟩
    exact ⟨(id, p), mapGet_mem hget, by simp [hf]⟩

theorem mapGet_sweep (now : Nat) (st : RegistryState) (id : String)
    (hn : (st.registry.map Prod.fst).Nodup) :
    mapGet id (checkHeartbeatTimeouts now st).registry
      = if ∃ p, mapGet id st.registry = some p ∧ (sweepProfile now p).2 = true
        then (mapGet id st.registry).map
              (fun p => deregProfile (sweepProfile now p).1 now "AUTOMATIC_HEARTBEAT_TIMEOUT")
        else (mapGet id st.registry).map (fun p => (sweepProfile now p).1) := by
  unfold checkHeartbeatTimeouts
  rw [mapGet_foldDereg]
  have hscan : mapGet id
      (st.registry.map (fun e => (e.1, (sweepProfile now e.2).1))) =
      (mapGet id st.registry).map (fun p => (sweepProfile now p).1) :=
    mapGet_map_snd (fun p => (sweepProfile now p).1) id st.registry
  by_cases hmem : id ∈ st.registry.filterMap
      (fun e => if (sweepProfile now e.2).2 then some e.1 else none)
  · rw [if_pos hmem, if_pos ((mem_sweepRemove_iff now st id hn).mp hmem)]
    simp only [hscan, Option.map_map, Function.comp_def]
  · rw [if_neg hmem, if_neg (fun hex => hmem ((mem_sweepRemove_iff now st id hn).mpr hex))]
    exact hscan

theorem regWF_registerNF {st : RegistryState} (h : regWF st)
    (id : String) (input : NFProfileInput) (now : Nat) :
    regWF (registerNF id input now st).1 := by
  obtain ⟨h1, h2⟩ := h
  constructor
  · intro kp hm
    rcases mem_mapSet hm with he | he
    · simp [he, builtProfile]
    · exact h1 kp he
  · exact nodup_keys_mapSet _ _ h2

theorem regWF_updateHeartbeat {st : RegistryState} (h : regWF st)
    (id : String) (now : Nat) :
    regWF (updateHeartbeat id now st).2 := by
  obtain ⟨h1, h2⟩ := h
  unfold updateHeartbeat
  cases hget : mapGet id st.registry with
  | none => exact ⟨h1, h2⟩
  | some p =>
    have hid : p.nfInstanceId = id := h1 (id, p) (mapGet_mem hget)
    constructor
    · intro kp hm
      simp only at hm
      rcases mem_mapSet hm with he | he
      · by_cases hu : p.nfStatus = NFStatus.UNAVAILABLE <;> simp [he, hu, hid]
      · exact h1 kp he
    · exact nodup_keys_mapSet _ _ h2

theorem regWF_deregisterNF {st : RegistryState} (h : regWF st)
    (id reason : String) (now : Nat) :
    regWF (deregisterNF id reason now st) := by
  obtain ⟨h1, h2⟩ := h
  unfold deregisterNF
  cases hget : mapGet id st.registry with
  | none => exact ⟨h1, h2⟩
  | some p =>
    have hid : p.nfInstanceId = id := h1 (id, p) (mapGet_mem hget)
    constructor
    · intro kp hm
      simp only at hm
      rcases mem_mapSet hm with he | he
      · simp [he, deregProfile, hid]
      · exact h1 kp he
    · exact nodup_keys_mapSet _ _ h2

theorem nfInstanceId_deregProfile (p : NFProfile) (now : Nat) (reason : String) :
    (deregProfile p now reason).nfInstanceId = p.nfInstanceId := rfl

/-! Claim theorems. -/

/-- C1: a discovery result never carries a status other than `REGISTERED`,
and a type-only query returns exactly the `REGISTERED` profiles whose
`nfType` equals the requested type, in registry iteration order. -/
theorem discover_filters_registered :
    ∀ (st : RegistryState) (q : DiscoveryQuery) (p : NFProfile),
      (p ∈ discoverNFs q st → p.nfStatus = NFStatus.REGISTERED) ∧
      ∀ t : String,
        discoverNFs { nfType := some t, service := none } st
          = (st.registry.map Prod.snd).filter
              (fun a => a.nfStatus = NFStatus.REGISTERED && a.nfType = t) := by
  intro st q p
  constructor
  · intro hp
    have hkeep := List.of_mem_filter hp
    unfold discoverKeep at hkeep
    simp only [Bool.and_eq_true, decide_eq_true_eq] at hkeep
    exact hkeep.1.1
  · intro t
    unfold discoverNFs
    apply List.filter_congr
    intro a _
    unfold discoverKeep
    simp

/-- Witness for C1 at a concrete registry holding one `REGISTERED`, one
`UNAVAILABLE` and one `REMOVED` profile. -/
theorem discover_filters_registered_witness :
    sampleProfile "amf-1" "AMF" .REGISTERED 0 0 ∈ discoverNFs DiscoveryQuery.empty wState0
      ∧ (sampleProfile "amf-1" "AMF" .REGISTERED 0 0).nfStatus = NFStatus.REGISTERED :=
  ⟨by decide,
   (discover_filters_registered wState0 DiscoveryQuery.empty
      (sampleProfile "amf-1" "AMF" .REGISTERED 0 0)).1 (by decide)⟩

/-- C7: `updateHeartbeat` returns false exactly on unknown ids; on a known id
it stamps `lastHeartbeat` and, when the profile was `UNAVAILABLE`, restores
it to `REGISTERED` recording the transition time, otherwise leaves the
status and transition time untouched. -/
theorem renew_unknown_and_restore :
    ∀ (st : RegistryState) (id : String) (now : Nat),
      ((updateHeartbeat id now st).1 = false ↔ mapGet id st.registry = none) ∧
      ∀ p, mapGet id st.registry = some p →
        ∃ p', mapGet id (updateHeartbeat id now st).2.registry = some p' ∧
          p'.lastHeartbeat = some now ∧
          (p.nfStatus = NFStatus.UNAVAILABLE →
            p'.nfStatus = NFStatus.REGISTERED ∧ p'.statusChangedAt = now) ∧
          (p.nfStatus ≠ NFStatus.UNAVAILABLE →
            p'.nfStatus = p.nfStatus ∧ p'.statusChangedAt = p.statusChangedAt) := by
  intro st id now
  constructor
  · cases h : mapGet id st.registry <;> simp [updateHeartbeat, h]
  · intro p hp
    by_cases hu : p.nfStatus = NFStatus.UNAVAILABLE
    · refine ⟨{ p with lastHeartbeat := some now, nfStatus := .REGISTERED, statusChangedAt := now },
        ?_, rfl, fun _ => ⟨rfl, rfl⟩, fun hc => absurd hu hc⟩
      simp [updateHeartbeat, hp, hu, mapGet_mapSet_self]
    · refine ⟨{ p with lastHeartbeat := some now }, ?_, rfl,
        fun hc => absurd hc hu, fun _ => ⟨rfl, rfl⟩⟩
      simp [updateHeartbeat, hp, hu, mapGet_mapSet_self]

/-- Witness for C7 at a concrete registry: an unknown id is refused, and a
known `UNAVAILABLE` profile is restored. -/
theorem renew_unknown_and_restore_witness :
    ((updateHeartbeat "ghost" 7 wState0).1 = false ↔ mapGet "ghost" wState0.registry = none)
      ∧ ∃ p', mapGet "smf-1" (updateHeartbeat "smf-1" 7 wState0).2.registry = some p' ∧
          p'.lastHeartbeat = some 7 ∧
          (NFStatus.UNAVAILABLE = NFStatus.UNAVAILABLE →
            p'.nfStatus = NFStatus.REGISTERED ∧ p'.statusChangedAt = 7) := by
  refine ⟨(renew_unknown_and_restore wState0 "ghost" 7).1, ?_⟩
  obtain ⟨p', h1, h2, h3, _⟩ :=
    (renew_unknown_and_restore wState0 "smf-1" 7).2
      (sampleProfile "smf-1" "SMF" .UNAVAILABLE 0 0) (by decide)
  exact ⟨p', h1, h2, fun _ => h3 rfl⟩

/-- C10: a heartbeat for a still-live `REMOVED` profile reports success and
stamps `lastHeartbeat`, but the status stays `REMOVED`; only a fresh
`registerNF` call brings the id back to `REGISTERED`. -/
theorem removed_profile_heartbeat_no_resurrect :
    ∀ (st : RegistryState) (id : String) (now : Nat) (p : NFProfile)
      (input : NFProfileInput),
      mapGet id st.registry = some p → p.nfStatus = NFStatus.REMOVED →
      (updateHeartbeat id now st).1 = true ∧
      (∃ p', mapGet id (updateHeartbeat id now st).2.registry = some p' ∧
        p'.nfStatus = NFStatus.REMOVED ∧ p'.lastHeartbeat = some now) ∧
      statusOf (registerNF id input now st).1 id = some NFStatus.REGISTERED := by
  intro st id now p input hp hrem
  have hne : p.nfStatus ≠ NFStatus.UNAVAILABLE := by simp [hrem]
  refine ⟨by simp [updateHeartbeat, hp],
    ⟨{ p with lastHeartbeat := some now }, ?_, by simp [hrem], rfl⟩, ?_⟩
  · simp [updateHeartbeat, hp, hne, mapGet_mapSet_self]
  · simp [statusOf, registerNF, mapGet_mapSet_self, builtProfile]

/-- Witness for C10 at a concrete registry holding a `REMOVED` profile. -/
theorem removed_profile_heartbeat_no_resurrect_witness :
    (updateHeartbeat "udm-1" 7 wState0).1 = true ∧
      (∃ p', mapGet "udm-1" (updateHeartbeat "udm-1" 7 wState0).2.registry = some p' ∧
        p'.nfStatus = NFStatus.REMOVED ∧ p'.lastHeartbeat = some 7) ∧
      statusOf (registerNF "udm-1" wInput0 7 wState0).1 "udm-1" = some NFStatus.REGISTERED :=
  removed_profile_heartbeat_no_resurrect wState0 "udm-1" 7
    (sampleProfile "udm-1" "UDM" .REMOVED 0 0) wInput0 (by decide) (by decide)

/-- C9: deregistering an unknown id leaves the whole registry state
untouched; deregistering a known id marks the profile `REMOVED` with
deregistration metadata, appends exactly one history record, points the
latest-record index at it, schedules the purge from the live map, and leaves
the registration records alone. -/
theorem deregister_unknown_noop_and_known_effects :
    ∀ (st : RegistryState) (id reason : String) (now : Nat),
      (mapGet id st.registry = none → deregisterNF id reason now st = st) ∧
      ∀ p, mapGet id st.registry = some p →
        mapGet id (deregisterNF id reason now st).registry
            = some (deregProfile p now reason) ∧
        (deregProfile p now reason).nfStatus = NFStatus.REMOVED ∧
        (deregProfile p now reason).deregisteredAt = some now ∧
        (deregProfile p now reason).deregistrationReason = some reason ∧
        (deregisterNF id reason now st).deregistrationHistory
            = st.deregistrationHistory ++ [deregRecordOf id p reason now] ∧
        mapGet id (deregisterNF id reason now st).deregistrationMessages
            = some (deregRecordOf id p reason now) ∧
        (deregisterNF id reason now st).pendingRemovals = st.pendingRemovals ++ [id] ∧
        (deregisterNF id reason now st).registrationMessages = st.registrationMessages ∧
        (deregisterNF id reason now st).registrationHistory = st.registrationHistory := by
  intro st id reason now
  constructor
  · intro h; simp [deregisterNF, h]
  · intro p hp
    refine ⟨by simp [deregisterNF, hp, mapGet_mapSet_self], rfl, rfl, rfl, ?_, ?_, ?_, ?_, ?_⟩
      <;> simp [deregisterNF, hp, mapGet_mapSet_self]

/-- Witness for C9 at a concrete registry: unknown-id no-op and the effects
of a known-id deregistration. -/
theorem deregister_unknown_noop_and_known_effects_witness :
    deregisterNF "ghost" "MANUAL" 9 wState0 = wState0 ∧
      mapGet "amf-1" (deregisterNF "amf-1" "MANUAL" 9 wState0).registry
        = some (deregProfile (sampleProfile "amf-1" "AMF" .REGISTERED 0 0) 9 "MANUAL") ∧
      (deregisterNF "amf-1" "MANUAL" 9 wState0).pendingRemovals = ["amf-1"] := by
  refine ⟨(deregister_unknown_noop_and_known_effects wState0 "ghost" "MANUAL" 9).1 (by decide), ?_, ?_⟩
  · exact ((deregister_unknown_noop_and_known_effects wState0 "amf-1" "MANUAL" 9).2
      (sampleProfile "amf-1" "AMF" .REGISTERED 0 0) (by decide)).1
  · have := ((deregister_unknown_noop_and_known_effects wState0 "amf-1" "MANUAL" 9).2
      (sampleProfile "amf-1" "AMF" .REGISTERED 0 0) (by decide)).2.2.2.2.2.2.1
    simpa [wState0, sampleState, RegistryState.init] using this

/-- C3: re-registering an existing instance id overwrites the profile with
the newly supplied fields, preserves the original `registeredAt`, keeps
exactly one entry under that id, and still returns a `REGISTERED` response
(no rejection path). -/
theorem reregistration_overwrites :
    ∀ (st : RegistryState) (id : String) (input : NFProfileInput) (now : Nat)
      (old : NFProfile),
      (st.registry.map Prod.fst).Nodup →
      mapGet id st.registry = some old →
      mapGet id (registerNF id input now st).1.registry
          = some (builtProfile id input (some old) now) ∧
      (builtProfile id input (some old) now).registeredAt = old.registeredAt ∧
      (builtProfile id input (some old) now).nfStatus = NFStatus.REGISTERED ∧
      (builtProfile id input (some old) now).nfType = input.nfType ∧
      (builtProfile id input (some old) now).nfName
          = input.nfName.getD (defaultNfName input.nfType id) ∧
      (builtProfile id input (some old) now).ipAddress = input.ipAddress ∧
      (builtProfile id input (some old) now).port = input.port ∧
      (builtProfile id input (some old) now).services = input.services ∧
      (builtProfile id input (some old) now).lastHeartbeat = some now ∧
      ((registerNF id input now st).1.registry.map Prod.fst).count id = 1 ∧
      (registerNF id input now st).2.nfStatus = NFStatus.REGISTERED := by
  intro st id input now old hn hp
  refine ⟨by simp [registerNF, hp, mapGet_mapSet_self], rfl, rfl, rfl, rfl, rfl, rfl, rfl, rfl, ?_, rfl⟩
  have hkeys : ((registerNF id input now st).1.registry.map Prod.fst)
      = st.registry.map Prod.fst := by
    simp only [registerNF]
    exact keys_mapSet_of_isSome _ (by simp [hp])
  rw [hkeys]
  exact List.count_eq_one_of_mem hn
    (List.mem_map.mpr ⟨(id, old), mapGet_mem hp, rfl⟩)

theorem sweepProfile_flag_unavailable {now : Nat} {p : NFProfile}
    (h : (sweepProfile now p).2 = true) : p.nfStatus = NFStatus.UNAVAILABLE := by
  unfold sweepProfile at h
  by_cases h1 : now - (p.lastHeartbeat.getD p.registeredAt) > heartbeatTimeout
  · by_cases h2 : p.nfStatus = NFStatus.REGISTERED
    · simp [h1, h2] at h
    · by_cases h3 : p.nfStatus = NFStatus.UNAVAILABLE
      · exact h3
      · simp [h1, h2, h3] at h
  · simp [h1] at h

theorem sweepProfile_flag_true {now : Nat} {p : NFProfile}
    (h1 : now - (p.lastHeartbeat.getD p.registeredAt) > heartbeatTimeout)
    (h2 : p.nfStatus = NFStatus.UNAVAILABLE)
    (h3 : now - p.statusChangedAt > gracePeriod) :
    (sweepProfile now p).2 = true := by
  have h2' : p.nfStatus ≠ NFStatus.REGISTERED := by simp [h2]
  unfold sweepProfile
  simp [h1, h2, h2', h3]

theorem sweepProfile_fst_unavailable {now : Nat} {p : NFProfile}
    (h : p.nfStatus = NFStatus.UNAVAILABLE) : (sweepProfile now p).1 = p := by
  have h' : p.nfStatus ≠ NFStatus.REGISTERED := by simp [h]
  unfold sweepProfile
  by_cases h1 : now - (p.lastHeartbeat.getD p.registeredAt) > heartbeatTimeout
  · simp [h1, h, h']
  · simp [h1]

theorem sweepProfile_fst_registered {now : Nat} {p : NFProfile}
    (h1 : now - (p.lastHeartbeat.getD p.registeredAt) > heartbeatTimeout)
    (h2 : p.nfStatus = NFStatus.REGISTERED) :
    (sweepProfile now p).1
      = { p with nfStatus := NFStatus.UNAVAILABLE, statusChangedAt := now } := by
  unfold sweepProfile
  simp [h1, h2]

theorem sweepProfile_fst_status (now : Nat) (p : NFProfile) :
    (sweepProfile now p).1.nfStatus = p.nfStatus
      ∨ (p.nfStatus = NFStatus.REGISTERED
          ∧ (sweepProfile now p).1.nfStatus = NFStatus.UNAVAILABLE) := by
  by_cases h2 : p.nfStatus = NFStatus.REGISTERED
  · by_cases h1 : now - (p.lastHeartbeat.getD p.registeredAt) > heartbeatTimeout
    · refine Or.inr ⟨h2, ?_⟩
      unfold sweepProfile
      simp [h1, h2]
    · refine Or.inl ?_
      unfold sweepProfile
      simp [h1]
  · refine Or.inl ?_
    unfold sweepProfile
    by_cases h1 : now - (p.lastHeartbeat.getD p.registeredAt) > heartbeatTimeout
    · by_cases h3 : p.nfStatus = NFStatus.UNAVAILABLE <;> simp [h1, h2, h3]
    · simp [h1]

/-- C2: across the registry operations, a present profile's status moves
only forward along REGISTERED, UNAVAILABLE, REMOVED — with the single
exception of a renewal restoring UNAVAILABLE to REGISTERED — and REMOVED is
terminal except for a fresh registration. -/
theorem status_state_machine :
    ∀ (st : RegistryState) (id reason : String) (input : NFProfileInput)
      (now : Nat) (old : NFStatus),
      (st.registry.map Prod.fst).Nodup →
      statusOf st id = some old →
      statusOf (registerNF id input now st).1 id = some NFStatus.REGISTERED ∧
      (∀ new, statusOf (updateHeartbeat id now st).2 id = some new →
        (new = old ∨ (old = NFStatus.UNAVAILABLE ∧ new = NFStatus.REGISTERED)) ∧
        (old = NFStatus.REMOVED → new = NFStatus.REMOVED)) ∧
      (∀ new, statusOf (deregisterNF id reason now st) id = some new →
        new = NFStatus.REMOVED) ∧
      (∀ new, statusOf (checkHeartbeatTimeouts now st) id = some new →
        (old = NFStatus.REGISTERED →
          new = NFStatus.REGISTERED ∨ new = NFStatus.UNAVAILABLE) ∧
        (old = NFStatus.UNAVAILABLE →
          new = NFStatus.UNAVAILABLE ∨ new = NFStatus.REMOVED) ∧
        (old = NFStatus.REMOVED → new = NFStatus.REMOVED)) := by
  intro st id reason input now old hn hst
  obtain ⟨p, hp, hpo⟩ := Option.map_eq_some'.mp hst
  subst hpo
  refine ⟨by simp [statusOf, registerNF, mapGet_mapSet_self, builtProfile], ?_, ?_, ?_⟩
  · intro new hnew
    by_cases hu : p.nfStatus = NFStatus.UNAVAILABLE
    · simp [statusOf, updateHeartbeat, hp, hu, mapGet_mapSet_self] at hnew
      subst hnew
      refine ⟨Or.inr ⟨hu, rfl⟩, fun hr => ?_⟩
      rw [hu] at hr
      cases hr
    · simp [statusOf, updateHeartbeat, hp, hu, mapGet_mapSet_self] at hnew
      subst hnew
      exact ⟨Or.inl rfl, fun hr => hr⟩
  · intro new hnew
    unfold statusOf at hnew
    rw [mapGet_deregisterNF_self, hp] at hnew
    simp only [Option.map_some'] at hnew
    injection hnew with hnew
    subst hnew
    rfl
  · intro new hnew
    unfold statusOf at hnew
    rw [mapGet_sweep now st id hn] at hnew
    by_cases hex : ∃ p0, mapGet id st.registry = some p0 ∧ (sweepProfile now p0).2 = true
    · rw [if_pos hex, hp] at hnew
      simp only [Option.map_some'] at hnew
      injection hnew with hnew
      subst hnew
      obtain ⟨p0, hp0, hflag⟩ := hex
      rw [hp] at hp0
      injection hp0 with hp0
      subst hp0
      have hun : p.nfStatus = NFStatus.UNAVAILABLE := sweepProfile_flag_unavailable hflag
      refine ⟨fun hr => ?_, fun _ => Or.inr rfl, fun hr => ?_⟩
      · rw [hun] at hr; cases hr
      · rw [hun] at hr; cases hr
    · rw [if_neg hex, hp] at hnew
      simp only [Option.map_some'] at hnew
      injection hnew with hnew
      subst hnew
      rcases sweepProfile_fst_status now p with hsame | ⟨hreg, hto⟩
      · rw [hsame]
        exact ⟨fun h => Or.inl h, fun h => Or.inl h, fun h => h⟩
      · rw [hto]
        refine ⟨fun _ => Or.inr rfl, fun hu => ?_, fun hr => ?_⟩
        · rw [hreg] at hu; cases hu
        · rw [hreg] at hr; cases hr

/-- Witness for C2 at a concrete registry: the renewal conjunct restores an
`UNAVAILABLE` profile, and the register conjunct yields `REGISTERED`. -/
theorem status_state_machine_witness :
    statusOf (registerNF "smf-1" wInput0 7 wState0).1 "smf-1" = some NFStatus.REGISTERED ∧
      (NFStatus.REGISTERED = NFStatus.UNAVAILABLE
        ∨ (NFStatus.UNAVAILABLE = NFStatus.UNAVAILABLE
            ∧ NFStatus.REGISTERED = NFStatus.REGISTERED)) := by
  have h := status_state_machine wState0 "smf-1" "MANUAL" wInput0 7
    NFStatus.UNAVAILABLE (by decide) (by decide)
  exact ⟨h.1, (h.2.1 NFStatus.REGISTERED (by decide)).1⟩

/-- C5 counterexample: the claim's grace-period clause is refuted twice at
concrete inputs.  First, a profile that is `UNAVAILABLE` with a
grace-expired status change but a fresh renewal is not deregistered by the
sweep (the source additionally requires the heartbeat timeout to have
elapsed).  Second, when the sweep does deregister, the recorded reason is
`AUTOMATIC_HEARTBEAT_TIMEOUT`, not `HEARTBEAT_TIMEOUT`. -/
theorem sweep_claim_counterexample :
    (statusOf (checkHeartbeatTimeouts 200000
        (sampleState [sampleProfile "nf1" "AMF" .UNAVAILABLE 190000 0])) "nf1"
          = some NFStatus.UNAVAILABLE
      ∧ 200000 - (sampleProfile "nf1" "AMF" .UNAVAILABLE 190000 0).statusChangedAt > gracePeriod
      ∧ (checkHeartbeatTimeouts 200000
          (sampleState [sampleProfile "nf1" "AMF" .UNAVAILABLE 190000 0])).deregistrationHistory = [])
    ∧ ((mapGet "nf2" (checkHeartbeatTimeouts 200000
          (sampleState [sampleProfile "nf2" "AMF" .UNAVAILABLE 0 0])).registry).map
            (fun p => p.deregistrationReason)
          = some (some "AUTOMATIC_HEARTBEAT_TIMEOUT")
      ∧ "AUTOMATIC_HEARTBEAT_TIMEOUT" ≠ "HEARTBEAT_TIMEOUT") := by
  refine ⟨⟨by decide, by decide, by decide⟩, by decide, by decide⟩

/-- C5 (amended): for a profile seen by a sweep pass whose time since last
renewal exceeds the heartbeat timeout: a `REGISTERED` profile moves to
`UNAVAILABLE` with the transition time recorded; an `UNAVAILABLE` profile
whose status change is older than the grace period is deregistered with
reason `AUTOMATIC_HEARTBEAT_TIMEOUT` after the full scan completes; and a
profile that began the pass `REGISTERED` is never removed by that pass
(collect-then-remove). -/
theorem sweep_transitions_amended :
    ∀ (st : RegistryState) (id : String) (now : Nat) (p : NFProfile),
      (st.registry.map Prod.fst).Nodup →
      mapGet id st.registry = some p →
      (now - (p.lastHeartbeat.getD p.registeredAt) > heartbeatTimeout →
        p.nfStatus = NFStatus.REGISTERED →
        mapGet id (checkHeartbeatTimeouts now st).registry
          = some { p with nfStatus := NFStatus.UNAVAILABLE, statusChangedAt := now }) ∧
      (now - (p.lastHeartbeat.getD p.registeredAt) > heartbeatTimeout →
        p.nfStatus = NFStatus.UNAVAILABLE → now - p.statusChangedAt > gracePeriod →
        mapGet id (checkHeartbeatTimeouts now st).registry
          = some (deregProfile p now "AUTOMATIC_HEARTBEAT_TIMEOUT")) ∧
      (p.nfStatus = NFStatus.REGISTERED →
        ∀ p', mapGet id (checkHeartbeatTimeouts now st).registry = some p' →
          p'.nfStatus ≠ NFStatus.REMOVED) := by
  intro st id now p hn hp
  have hsweep := mapGet_sweep now st id hn
  refine ⟨?_, ?_, ?_⟩
  · intro hhb hreg
    have hnoflag : ¬ ∃ p0, mapGet id st.registry = some p0 ∧ (sweepProfile now p0).2 = true := by
      rintro ⟨p0, hp0, hflag⟩
      rw [hp] at hp0
      injection hp0 with hp0
      subst hp0
      rw [sweepProfile_flag_unavailable hflag] at hreg
      cases hreg
    rw [hsweep, if_neg hnoflag, hp, Option.map_some', sweepProfile_fst_registered hhb hreg]
  · intro hhb hun hgrace
    have hflag : ∃ p0, mapGet id st.registry = some p0 ∧ (sweepProfile now p0).2 = true :=
      ⟨p, hp, sweepProfile_flag_true hhb hun hgrace⟩
    rw [hsweep, if_pos hflag, hp, Option.map_some', sweepProfile_fst_unavailable hun]
  · intro hreg p' hp'
    have hnoflag : ¬ ∃ p0, mapGet id st.registry = some p0 ∧ (sweepProfile now p0).2 = true := by
      rintro ⟨p0, hp0, hflag⟩
      rw [hp] at hp0
      injection hp0 with hp0
      subst hp0
      rw [sweepProfile_flag_unavailable hflag] at hreg
      cases hreg
    rw [hsweep, if_neg hnoflag, hp, Option.map_some'] at hp'
    injection hp' with hp'
    rw [← hp']
    rcases sweepProfile_fst_status now p with hsame | ⟨_, hto⟩
    · rw [hsame, hreg]
      simp
    · rw [hto]
      simp

/-- Witness for C5 (amended) at a concrete registry: a stale `REGISTERED`
profile is marked `UNAVAILABLE`, and a stale grace-expired `UNAVAILABLE`
profile is deregistered with reason `AUTOMATIC_HEARTBEAT_TIMEOUT`. -/
theorem sweep_transitions_amended_witness :
    mapGet "amf-1" (checkHeartbeatTimeouts 200000 wState0).registry
        = some { sampleProfile "amf-1" "AMF" .REGISTERED 0 0 with
                   nfStatus := NFStatus.UNAVAILABLE, statusChangedAt := 200000 } ∧
      mapGet "smf-1" (checkHeartbeatTimeouts 200000 wState0).registry
        = some (deregProfile (sampleProfile "smf-1" "SMF" .UNAVAILABLE 0 0) 200000
            "AUTOMATIC_HEARTBEAT_TIMEOUT") := by
  constructor
  · exact (sweep_transitions_amended wState0 "amf-1" 200000
      (sampleProfile "amf-1" "AMF" .REGISTERED 0 0) (by decide) (by decide)).1
      (by decide) (by decide)
  · exact (sweep_transitions_amended wState0 "smf-1" 200000
      (sampleProfile "smf-1" "SMF" .UNAVAILABLE 0 0) (by decide) (by decide)).2.1
      (by decide) (by decide) (by decide)

/-- Witness for C3 at a concrete registry: re-registering `amf-1` keeps its
original `registeredAt` and a single entry. -/
theorem reregistration_overwrites_witness :
    mapGet "amf-1" (registerNF "amf-1" wInput0 42 wState0).1.registry
        = some (builtProfile "amf-1" wInput0
            (some (sampleProfile "amf-1" "AMF" .REGISTERED 0 0)) 42) ∧
      (builtProfile "amf-1" wInput0
          (some (sampleProfile "amf-1" "AMF" .REGISTERED 0 0)) 42).registeredAt = 0 ∧
      ((registerNF "amf-1" wInput0 42 wState0).1.registry.map Prod.fst).count "amf-1" = 1 := by
  have h := reregistration_overwrites wState0 "amf-1" wInput0 42
    (sampleProfile "amf-1" "AMF" .REGISTERED 0 0) (by decide) (by decide)
  exact ⟨h.1, h.2.1, h.2.2.2.2.2.2.2.2.2.1⟩

/-! Helper lemmas for the connection admission policy. -/

theorem tableLookup_mem {α : Type} {k : String} {v : α} :
    ∀ {l : List (String × α)}, tableLookup k l = some v → (k, v) ∈ l := by
  intro l
  induction l with
  | nil => intro h; simp [tableLookup] at h
  | cons e rest ih =>
    obtain ⟨k₀, v₀⟩ := e
    intro h
    by_cases h0 : k = k₀
    · subst h0
      simp [tableLookup] at h
      simp [h]
    · simp [tableLookup, h0] at h
      exact List.mem_cons_of_mem _ (ih h)

theorem validConnectionsTable_closed_bool :
    (validConnectionsTable.all
      (fun e => e.2.all (fun x => (validConnections x).isSome))) = true := by
  decide

theorem validConnections_closed {a : String} {la : List String}
    (h : validConnections a = some la) {b : String} (hb : b ∈ la) :
    (validConnections b).isSome = true := by
  have hmem : (a, la) ∈ validConnectionsTable := tableLookup_mem h
  have hall := validConnectionsTable_closed_bool
  rw [List.all_eq_true] at hall
  have h2 := hall (a, la) hmem
  rw [List.all_eq_true] at h2
  exact h2 b hb

theorem isConnectionValid_eq_spec (a b : String) :
    isConnectionValid a b = typesCompatibleSpec a b := by
  unfold isConnectionValid typesCompatibleSpec
  cases h1 : validConnections a with
  | none =>
    cases h2 : validConnections b with
    | none => simp [h1, h2]
    | some lb =>
      by_cases hc : a ∈ lb
      · have hsome := validConnections_closed h2 hc
        rw [h1] at hsome
        simp at hsome
      · simp [h1, h2, hc]
  | some la =>
    by_cases hc : b ∈ la
    · cases h2 : validConnections b <;> simp [h1, h2, hc]
    · cases h2 : validConnections b <;> simp [h1, h2, hc]

theorem typesCompatibleSpec_symm (a b : String) :
    typesCompatibleSpec a b = typesCompatibleSpec b a := by
  unfold typesCompatibleSpec
  exact Bool.or_comm _ _

theorem createConnectionResult_eq_claimed (nfs : List NF)
    (sourceId targetId connId protocol : String) (now : Nat) (isManual : Bool) :
    createConnectionResult nfs sourceId targetId connId protocol now isManual
      = claimedCreateLink nfs sourceId targetId connId protocol now isManual := by
  unfold createConnectionResult claimedCreateLink
  cases h1 : getNFById nfs sourceId with
  | none => cases h2 : getNFById nfs targetId <;> rfl
  | some s =>
    cases h2 : getNFById nfs targetId with
    | none => rfl
    | some t => simp [isConnectionValid_eq_spec]

theorem createConnectionResult_isOk_iff (nfs : List NF)
    (sourceId targetId connId protocol : String) (now : Nat) (isManual : Bool) :
    (createConnectionResult nfs sourceId targetId connId protocol now isManual).isOk = true
      ↔ ∃ s t, getNFById nfs sourceId = some s ∧ getNFById nfs targetId = some t
          ∧ sourceId ≠ targetId
          ∧ getNetworkFromIP s.ipAddress = getNetworkFromIP t.ipAddress
          ∧ typesCompatibleSpec s.type t.type = true := by
  unfold createConnectionResult
  cases h1 : getNFById nfs sourceId with
  | none => simp [h1, Except.isOk, Except.toBool]
  | some s =>
    cases h2 : getNFById nfs targetId with
    | none => simp [h1, h2, Except.isOk, Except.toBool]
    | some t =>
      simp only [h1, h2, Option.some.injEq]
      split_ifs with ha hb hc
      · simp [Except.isOk, Except.toBool, ha]
      · constructor
        · intro h; simp [Except.isOk, Except.toBool] at h
        · rintro ⟨s', t', hs', ht', _, hnet, _⟩
          subst hs'
          subst ht'
          exact absurd hnet hb
      · constructor
        · intro _
          refine ⟨s, t, rfl, rfl, ha, not_not.mp hb, ?_⟩
          rw [← isConnectionValid_eq_spec]
          exact hc
        · intro _
          rfl
      · constructor
        · intro h; simp [Except.isOk, Except.toBool] at h
        · rintro ⟨s', t', hs', ht', _, _, hcomp⟩
          subst hs'
          subst ht'
          rw [isConnectionValid_eq_spec] at hc
          exact absurd hcomp hc

theorem connections_startNFHeartbeat (nfId : String) (now : Nat) (w : World) :
    (startNFHeartbeat nfId now w).connections = w.connections := by
  unfold startNFHeartbeat
  cases h : getNFById w.nfs nfId with
  | none => rfl
  | some nf =>
    by_cases h1 : nf.type = "NRF"
    · simp [h1]
    · by_cases h2 : nfId ∈ w.activeHeartbeats
      · simp [h1, h2]
      · by_cases h3 : ∃ x ∈ w.connections, isNRFConnection w.nfs nfId x = true <;>
          simp [h1, h2, h3]

theorem connections_createConnection (sourceId targetId : String) (isManual : Bool)
    (connId protocol : String) (now : Nat) (w : World) :
    (createConnection sourceId targetId isManual connId protocol now w).2.connections
      = w.connections
        ++ (match createConnectionResult w.nfs sourceId targetId connId protocol now isManual with
            | .ok l => [l]
            | .error _ => []) := by
  unfold createConnection
  cases hres : createConnectionResult w.nfs sourceId targetId connId protocol now isManual with
  | error e => simp
  | ok conn =>
    cases h1 : getNFById w.nfs sourceId with
    | none => simp [h1]
    | some s =>
      cases h2 : getNFById w.nfs targetId with
      | none => simp [h1, h2]
      | some t =>
        simp only [h1, h2]
        by_cases hb1 : t.type = "NRF" ∧ s.type ≠ "NRF"
        · rw [if_pos hb1]
          simp [connections_startNFHeartbeat]
        · rw [if_neg hb1]
          by_cases hb2 : s.type = "NRF" ∧ t.type ≠ "NRF"
          · rw [if_pos hb2]
            simp [connections_startNFHeartbeat]
          · rw [if_neg hb2]

/-- C4: a link is produced exactly when both endpoints exist, they are
distinct, they share the first-three-octet subnet prefix, and their types
are compatible in either direction; the rejection checks run in exactly
that order with four distinct reasons (the source admission equals the
claimed decision procedure), and a rejected call leaves the stored
connection list unchanged. -/
theorem createLink_admission :
    ∀ (w : World) (sourceId targetId connId protocol : String) (now : Nat)
      (isManual : Bool),
      ((createConnectionResult w.nfs sourceId targetId connId protocol now isManual).isOk = true
        ↔ ∃ s t, getNFById w.nfs sourceId = some s ∧ getNFById w.nfs targetId = some t
            ∧ sourceId ≠ targetId
            ∧ getNetworkFromIP s.ipAddress = getNetworkFromIP t.ipAddress
            ∧ typesCompatibleSpec s.type t.type = true) ∧
      createConnectionResult w.nfs sourceId targetId connId protocol now isManual
        = claimedCreateLink w.nfs sourceId targetId connId protocol now isManual ∧
      (createConnection sourceId targetId isManual connId protocol now w).2.connections
        = w.connections
          ++ (match createConnectionResult w.nfs sourceId targetId connId protocol now isManual with
              | .ok l => [l]
              | .error _ => []) :=
  fun w sourceId targetId connId protocol now isManual =>
    ⟨createConnectionResult_isOk_iff w.nfs sourceId targetId connId protocol now isManual,
     createConnectionResult_eq_claimed w.nfs sourceId targetId connId protocol now isManual,
     connections_createConnection sourceId targetId isManual connId protocol now w⟩

/-! Helper lemmas for the auto-registration coupling. -/

theorem getNFById_id {nfs : List NF} {nfId : String} {nf : NF}
    (h : getNFById nfs nfId = some nf) : nf.id = nfId := by
  have hfound := List.find?_some h
  simpa using hfound

theorem getNFById_self {nfs : List NF} {nfId : String} {nf : NF}
    (h : getNFById nfs nfId = some nf) : getNFById nfs nf.id = some nf := by
  rw [getNFById_id h]
  exact h

theorem find?_append_of_none {α : Type} {p : α → Bool} {l1 l2 : List α}
    (h : ∀ x ∈ l1, p x = false) : (l1 ++ l2).find? p = l2.find? p := by
  induction l1 with
  | nil => simp
  | cons a tl ih =>
    have ha := h a (List.mem_cons_self a tl)
    rw [List.cons_append, List.find?_cons_of_neg _ (by simp [ha])]
    exact ih (fun x hx => h x (List.mem_cons_of_mem _ hx))

theorem getConnectionById_append_fresh {conns : List Link} {connId : String} {conn : Link}
    (hfresh : ∀ c ∈ conns, c.id ≠ connId) (hid : conn.id = connId) :
    getConnectionById (conns ++ [conn]) connId = some conn := by
  unfold getConnectionById
  rw [find?_append_of_none (fun x hx => by simp [hfresh x hx])]
  simp [List.find?, hid]

theorem updateHeartbeat_keeps_registered {st : RegistryState} {id : String} {p : NFProfile}
    (hp : mapGet id st.registry = some p) (hreg : p.nfStatus = NFStatus.REGISTERED)
    (now : Nat) :
    mapGet id (updateHeartbeat id now st).2.registry
      = some { p with lastHeartbeat := some now } := by
  have hne : p.nfStatus ≠ NFStatus.UNAVAILABLE := by simp [hreg]
  simp [updateHeartbeat, hp, hne, mapGet_mapSet_self]

theorem mem_discover_of_registered {st : RegistryState} {id : String} {p : NFProfile}
    (hp : mapGet id st.registry = some p) (hreg : p.nfStatus = NFStatus.REGISTERED) :
    p ∈ discoverNFs DiscoveryQuery.empty st := by
  unfold discoverNFs
  refine List.mem_filter.mpr ⟨List.mem_map.mpr ⟨(id, p), mapGet_mem hp, rfl⟩, ?_⟩
  simp [discoverKeep, hreg, DiscoveryQuery.empty]

theorem discover_excludes_removed {st : RegistryState} {id : String} {q : NFProfile}
    (hwf : regWF st) (hq : mapGet id st.registry = some q)
    (hrem : q.nfStatus ≠ NFStatus.REGISTERED) :
    ∀ p ∈ discoverNFs DiscoveryQuery.empty st, p.nfInstanceId ≠ id := by
  intro p hp hpid
  unfold discoverNFs at hp
  rcases List.mem_filter.mp hp with ⟨hmem, hkeep⟩
  rcases List.mem_map.mp hmem with ⟨⟨k, p0⟩, hkp, hsnd⟩
  simp only at hsnd
  subst hsnd
  have hk : p0.nfInstanceId = k := hwf.1 (k, p0) hkp
  have hkid : k = id := by rw [← hk, hpid]
  subst hkid
  have hget : mapGet k st.registry = some p0 := mem_mapGet hwf.2 hkp
  rw [hq] at hget
  injection hget with hget
  subst hget
  have hstat : q.nfStatus = NFStatus.REGISTERED := by
    simpa [discoverKeep, DiscoveryQuery.empty] using hkeep
  exact hrem hstat

theorem not_mem_filter_ne_self {l : List String} {a : String} :
    a ∉ l.filter (fun i => i ≠ a) := by
  intro h
  have hmem := List.of_mem_filter h
  simp at hmem

theorem reg_stopNFHeartbeat (nfId : String) (w : World) :
    (stopNFHeartbeat nfId w).reg = w.reg := by
  unfold stopNFHeartbeat
  cases getNFById w.nfs nfId <;> rfl

theorem startNFHeartbeat_after_register (w0 : World) (other : NF) (now : Nat)
    (hother : getNFById w0.nfs other.id = some other)
    (hnrf : other.type ≠ "NRF")
    (hconn : ∃ x ∈ w0.connections, isNRFConnection w0.nfs other.id x = true)
    (hq : ∃ q, mapGet other.id w0.reg.registry = some q
        ∧ q.nfStatus = NFStatus.REGISTERED ∧ q.nfInstanceId = other.id)
    (hwf : regWF w0.reg) :
    (∃ p, mapGet other.id (startNFHeartbeat other.id now w0).reg.registry = some p
        ∧ p.nfStatus = NFStatus.REGISTERED ∧ p.nfInstanceId = other.id)
      ∧ regWF (startNFHeartbeat other.id now w0).reg
      ∧ other.id ∈ (startNFHeartbeat other.id now w0).activeHeartbeats
      ∧ (startNFHeartbeat other.id now w0).connections = w0.connections
      ∧ (startNFHeartbeat other.id now w0).nfs = w0.nfs := by
  obtain ⟨q, hq1, hq2, hq3⟩ := hq
  unfold startNFHeartbeat
  simp only [hother]
  rw [if_neg hnrf]
  by_cases hmem : w0.activeHeartbeats.contains other.id = true
  · rw [if_pos hmem]
    exact ⟨⟨q, hq1, hq2, hq3⟩, hwf, by simpa using hmem, rfl, rfl⟩
  · rw [if_neg hmem, if_pos (List.any_eq_true.mpr hconn)]
    refine ⟨⟨{ q with lastHeartbeat := some now },
        updateHeartbeat_keeps_registered hq1 hq2 now, hq2, hq3⟩,
      regWF_updateHeartbeat hwf other.id now, List.mem_cons_self _ _, rfl, rfl⟩

theorem coupling_after_delete (w1 : World) (connId : String) (conn : Link)
    (nrfNF other : NF) (now2 : Nat)
    (hfind : getConnectionById w1.connections connId = some conn)
    (hbranch : (getNFById w1.nfs conn.sourceId = some other
                  ∧ getNFById w1.nfs conn.targetId = some nrfNF)
             ∨ (getNFById w1.nfs conn.sourceId = some nrfNF
                  ∧ getNFById w1.nfs conn.targetId = some other))
    (hntype : nrfNF.type = "NRF") (hotype : other.type ≠ "NRF")
    (hotherW : getNFById w1.nfs other.id = some other) :
    (deleteConnection connId now2 w1).reg
        = deregisterNF other.id "NRF_CONNECTION_REMOVED" now2 w1.reg
      ∧ (deleteConnection connId now2 w1).activeHeartbeats
        = w1.activeHeartbeats.filter (fun i => i ≠ other.id) := by
  unfold deleteConnection
  simp only [hfind]
  rcases hbranch with ⟨h1, h2⟩ | ⟨h1, h2⟩
  · simp only [h1, h2]
    rw [if_pos ⟨hntype, hotype⟩]
    constructor
    · simp [reg_stopNFHeartbeat]
    · simp [stopNFHeartbeat, hotherW]
  · simp only [h1, h2]
    rw [if_neg (fun hcon => hotype hcon.1), if_pos ⟨hntype, hotype⟩]
    constructor
    · simp [reg_stopNFHeartbeat]
    · simp [stopNFHeartbeat, hotherW]

/-- C6: creating an admissible link between a non-NRF instance and the NRF
instance registers the non-NRF endpoint (it appears in discovery with
status `REGISTERED`) and starts its renewal heartbeat; deleting that same
link deregisters the endpoint (status `REMOVED`, gone from discovery) and
stops its heartbeat. -/
theorem autoregistration_coupling :
    ∀ (w : World) (sourceId targetId connId protocol : String) (isManual : Bool)
      (now now2 : Nat) (s t other : NF) (conn : Link),
      regWF w.reg →
      (∀ c ∈ w.connections, c.id ≠ connId) →
      getNFById w.nfs sourceId = some s →
      getNFById w.nfs targetId = some t →
      ((t.type = "NRF" ∧ s.type ≠ "NRF" ∧ other = s)
        ∨ (s.type = "NRF" ∧ t.type ≠ "NRF" ∧ other = t)) →
      createConnectionResult w.nfs sourceId targetId connId protocol now isManual
        = Except.ok conn →
      (∃ p, mapGet other.id
          ((createConnection sourceId targetId isManual connId protocol now w).2).reg.registry
          = some p ∧ p.nfStatus = NFStatus.REGISTERED) ∧
      (∃ p, p ∈ discoverNFs DiscoveryQuery.empty
          ((createConnection sourceId targetId isManual connId protocol now w).2).reg
        ∧ p.nfInstanceId = other.id) ∧
      other.id ∈ ((createConnection sourceId targetId isManual connId protocol now w).2).activeHeartbeats ∧
      (∃ p, mapGet other.id
          (deleteConnection connId now2
            ((createConnection sourceId targetId isManual connId protocol now w).2)).reg.registry
          = some p ∧ p.nfStatus = NFStatus.REMOVED) ∧
      (∀ p ∈ discoverNFs DiscoveryQuery.empty
          (deleteConnection connId now2
            ((createConnection sourceId targetId isManual connId protocol now w).2)).reg,
        p.nfInstanceId ≠ other.id) ∧
      other.id ∉ (deleteConnection connId now2
          ((createConnection sourceId targetId isManual connId protocol now w).2)).activeHeartbeats := by
  intro w sourceId targetId connId protocol isManual now now2 s t other conn
    hwf hfresh hs ht horient hok
  have hok' := hok
  unfold createConnectionResult at hok'
  simp only [hs, ht] at hok'
  by_cases ha : sourceId = targetId
  · rw [if_pos ha] at hok'
    simp at hok'
  rw [if_neg ha] at hok'
  by_cases hb : getNetworkFromIP s.ipAddress ≠ getNetworkFromIP t.ipAddress
  · rw [if_pos hb] at hok'
    simp at hok'
  rw [if_neg hb] at hok'
  by_cases hc : ¬ isConnectionValid s.type t.type = true
  · rw [if_pos hc] at hok'
    simp at hok'
  rw [if_neg hc] at hok'
  injection hok' with hconn
  have hcid : conn.id = connId := by rw [← hconn]
  have hcsrc : conn.sourceId = sourceId := by rw [← hconn]
  have hctgt : conn.targetId = targetId := by rw [← hconn]
  have hsid : s.id = sourceId := getNFById_id hs
  have htid : t.id = targetId := getNFById_id ht
  rcases horient with ⟨ho1, ho2, hoe⟩ | ⟨ho1, ho2, hoe⟩
  · subst hoe
    have hw1 : (createConnection sourceId targetId isManual connId protocol now w).2
        = startNFHeartbeat other.id now
            { nfs := w.nfs, connections := w.connections ++ [conn],
              reg := (registerNF other.id (profileForNF other) now w.reg).1,
              activeHeartbeats := w.activeHeartbeats } := by
      simp only [createConnection, hok, hs, ht]
      rw [if_pos ⟨ho1, ho2⟩]
    have hnrfc : isNRFConnection w.nfs other.id conn = true := by
      simp [isNRFConnection, hcsrc, hctgt, hsid, ht, ho1]
    have hreg0 : mapGet other.id (registerNF other.id (profileForNF other) now w.reg).1.registry
        = some (builtProfile other.id (profileForNF other) (mapGet other.id w.reg.registry) now) := by
      unfold registerNF
      exact mapGet_mapSet_self _ _ _
    have hstart := startNFHeartbeat_after_register
      { nfs := w.nfs, connections := w.connections ++ [conn],
        reg := (registerNF other.id (profileForNF other) now w.reg).1,
        activeHeartbeats := w.activeHeartbeats } other now
      (getNFById_self hs) ho2
      ⟨conn, by simp, hnrfc⟩
      ⟨builtProfile other.id (profileForNF other) (mapGet other.id w.reg.registry) now, hreg0, rfl, rfl⟩
      (regWF_registerNF hwf other.id (profileForNF other) now)
    obtain ⟨⟨p1, hp1, hp1reg, hp1id⟩, hwf1, hact, hconns1, hnfs1⟩ := hstart
    have hnfs1' : (startNFHeartbeat other.id now
        { nfs := w.nfs, connections := w.connections ++ [conn],
          reg := (registerNF other.id (profileForNF other) now w.reg).1,
          activeHeartbeats := w.activeHeartbeats }).nfs = w.nfs := hnfs1
    have hfind : getConnectionById (startNFHeartbeat other.id now
        { nfs := w.nfs, connections := w.connections ++ [conn],
          reg := (registerNF other.id (profileForNF other) now w.reg).1,
          activeHeartbeats := w.activeHeartbeats }).connections connId = some conn := by
      rw [hconns1]
      exact getConnectionById_append_fresh hfresh hcid
    have hdel := coupling_after_delete _ connId conn t other now2 hfind
      (Or.inl ⟨by rw [hnfs1', hcsrc]; exact hs, by rw [hnfs1', hctgt]; exact ht⟩)
      ho1 ho2 (by rw [hnfs1']; exact getNFById_self hs)
    obtain ⟨hdreg, hdact⟩ := hdel
    rw [hw1]
    refine ⟨⟨p1, hp1, hp1reg⟩,
      ⟨p1, mem_discover_of_registered hp1 hp1reg, hp1id⟩, hact, ?_, ?_, ?_⟩
    · refine ⟨deregProfile p1 now2 "NRF_CONNECTION_REMOVED", ?_, rfl⟩
      rw [hdreg, mapGet_deregisterNF_self, hp1]
      rfl
    · rw [hdreg]
      exact @discover_excludes_removed _ _ (deregProfile p1 now2 "NRF_CONNECTION_REMOVED")
        (regWF_deregisterNF hwf1 _ _ _)
        (by rw [mapGet_deregisterNF_self, hp1]; rfl) (by simp [deregProfile])
    · rw [hdact]
      exact not_mem_filter_ne_self
  · subst hoe
    have hw1 : (createConnection sourceId targetId isManual connId protocol now w).2
        = startNFHeartbeat other.id now
            { nfs := w.nfs, connections := w.connections ++ [conn],
              reg := (registerNF other.id (profileForNF other) now w.reg).1,
              activeHeartbeats := w.activeHeartbeats } := by
      simp only [createConnection, hok, hs, ht]
      rw [if_neg (fun hcon => ho2 hcon.1), if_pos ⟨ho1, ho2⟩]
    have hne : sourceId ≠ other.id := by
      rw [htid]
      exact ha
    have heq : conn.targetId = other.id := by rw [hctgt, htid]
    have hnrfc : isNRFConnection w.nfs other.id conn = true := by
      simp [isNRFConnection, hne, heq, hcsrc, hs, ho1]
    have hreg0 : mapGet other.id (registerNF other.id (profileForNF other) now w.reg).1.registry
        = some (builtProfile other.id (profileForNF other) (mapGet other.id w.reg.registry) now) := by
      unfold registerNF
      exact mapGet_mapSet_self _ _ _
    have hstart := startNFHeartbeat_after_register
      { nfs := w.nfs, connections := w.connections ++ [conn],
        reg := (registerNF other.id (profileForNF other) now w.reg).1,
        activeHeartbeats := w.activeHeartbeats } other now
      (getNFById_self ht) ho2
      ⟨conn, by simp, hnrfc⟩
      ⟨builtProfile other.id (profileForNF other) (mapGet other.id w.reg.registry) now, hreg0, rfl, rfl⟩
      (regWF_registerNF hwf other.id (profileForNF other) now)
    obtain ⟨⟨p1, hp1, hp1reg, hp1id⟩, hwf1, hact, hconns1, hnfs1⟩ := hstart
    have hnfs1' : (startNFHeartbeat other.id now
        { nfs := w.nfs, connections := w.connections ++ [conn],
          reg := (registerNF other.id (profileForNF other) now w.reg).1,
          activeHeartbeats := w.activeHeartbeats }).nfs = w.nfs := hnfs1
    have hfind : getConnectionById (startNFHeartbeat other.id now
        { nfs := w.nfs, connections := w.connections ++ [conn],
          reg := (registerNF other.id (profileForNF other) now w.reg).1,
          activeHeartbeats := w.activeHeartbeats }).connections connId = some conn := by
      rw [hconns1]
      exact getConnectionById_append_fresh hfresh hcid
    have hdel := coupling_after_delete _ connId conn s other now2 hfind
      (Or.inr ⟨by rw [hnfs1', hcsrc]; exact hs, by rw [hnfs1', hctgt]; exact ht⟩)
      ho1 ho2 (by rw [hnfs1']; exact getNFById_self ht)
    obtain ⟨hdreg, hdact⟩ := hdel
    rw [hw1]
    refine ⟨⟨p1, hp1, hp1reg⟩,
      ⟨p1, mem_discover_of_registered hp1 hp1reg, hp1id⟩, hact, ?_, ?_, ?_⟩
    · refine ⟨deregProfile p1 now2 "NRF_CONNECTION_REMOVED", ?_, rfl⟩
      rw [hdreg, mapGet_deregisterNF_self, hp1]
      rfl
    · rw [hdreg]
      exact @discover_excludes_removed _ _ (deregProfile p1 now2 "NRF_CONNECTION_REMOVED")
        (regWF_deregisterNF hwf1 _ _ _)
        (by rw [mapGet_deregisterNF_self, hp1]; rfl) (by simp [deregProfile])
    · rw [hdact]
      exact not_mem_filter_ne_self

/-- Witness for C6 at a concrete world: linking `amf-1` to the NRF
registers it and starts its heartbeat; deleting the link removes it and
stops the heartbeat. -/
theorem autoregistration_coupling_witness :
    (∃ p, mapGet "amf-1"
        ((createConnection "amf-1" "nrf-1" true "c1" "HTTP/2" 1000 wWorld0).2).reg.registry
        = some p ∧ p.nfStatus = NFStatus.REGISTERED) ∧
    "amf-1" ∈ ((createConnection "amf-1" "nrf-1" true "c1" "HTTP/2" 1000 wWorld0).2).activeHeartbeats ∧
    (∃ p, mapGet "amf-1"
        (deleteConnection "c1" 2000
          ((createConnection "amf-1" "nrf-1" true "c1" "HTTP/2" 1000 wWorld0).2)).reg.registry
        = some p ∧ p.nfStatus = NFStatus.REMOVED) ∧
    "amf-1" ∉ (deleteConnection "c1" 2000
        ((createConnection "amf-1" "nrf-1" true "c1" "HTTP/2" 1000 wWorld0).2)).activeHeartbeats := by
  have h := autoregistration_coupling wWorld0 "amf-1" "nrf-1" "c1" "HTTP/2" true 1000 2000
    { id := "amf-1", type := "AMF", name := "AMF", ipAddress := "192.168.1.5",
      port := 7777, httpProtocol := none }
    { id := "nrf-1", type := "NRF", name := "NRF", ipAddress := "192.168.1.2",
      port := 7777, httpProtocol := none }
    { id := "amf-1", type := "AMF", name := "AMF", ipAddress := "192.168.1.5",
      port := 7777, httpProtocol := none }
    { id := "c1", sourceId := "amf-1", targetId := "nrf-1",
      interfaceName := getInterfaceName "AMF" "NRF", protocol := "HTTP/2",
      status := "connected", createdAt := 1000, isManual := true, showVisual := true }
    ⟨by intro kp hk; simp [wWorld0, RegistryState.init] at hk,
      by simp [wWorld0, RegistryState.init]⟩
    (by intro c hc; simp [wWorld0] at hc)
    (by decide) (by decide)
    (Or.inl ⟨rfl, by decide, rfl⟩)
    (by rfl)
  exact ⟨h.1, h.2.2.1, h.2.2.2.1, h.2.2.2.2.2⟩

/-- C8: the admissibility verdict is symmetric in the two component types,
and consequently creating the link in the reverse direction succeeds
exactly when the forward direction does. -/
theorem admissibility_symmetric :
    ∀ (typeA typeB : String) (nfs : List NF) (a b connId protocol : String)
      (now : Nat) (isManual : Bool),
      isConnectionValid typeA typeB = isConnectionValid typeB typeA ∧
      (createConnectionResult nfs a b connId protocol now isManual).isOk
        = (createConnectionResult nfs b a connId protocol now isManual).isOk := by
  intro typeA typeB nfs a b connId protocol now isManual
  constructor
  · rw [isConnectionValid_eq_spec, isConnectionValid_eq_spec, typesCompatibleSpec_symm]
  · have h1 := createConnectionResult_isOk_iff nfs a b connId protocol now isManual
    have h2 := createConnectionResult_isOk_iff nfs b a connId protocol now isManual
    cases hx : (createConnectionResult nfs a b connId protocol now isManual).isOk with
    | true =>
      obtain ⟨s, t, hs, ht, hne, hnet, hcomp⟩ := h1.mp hx
      symm
      exact h2.mpr ⟨t, s, ht, hs, hne.symm, hnet.symm,
        by rw [typesCompatibleSpec_symm]; exact hcomp⟩
    | false =>
      cases hy : (createConnectionResult nfs b a connId protocol now isManual).isOk with
      | false => rfl
      | true =>
        obtain ⟨t, s, ht, hs, hne, hnet, hcomp⟩ := h2.mp hy
        have hgood : (createConnectionResult nfs a b connId protocol now isManual).isOk = true :=
          h1.mpr ⟨s, t, hs, ht, hne.symm, hnet.symm,
            by rw [typesCompatibleSpec_symm]; exact hcomp⟩
        rw [hx] at hgood
        cases hgood

end NRFSim
